import Mathlib

/-!
Verification of the local MCP bridge (TypeScript repository) against its
natural-language specification.

Shallow embedding conventions:
* JavaScript timestamps (`Date.now()`) are `Nat` milliseconds.
* Durations and backoff delays are `ℚ` (JS numbers; no rounding issues arise
  in the claims considered).
* A fallible asynchronous operation is an `Except`-valued outcome; the time a
  promise takes to settle is carried alongside where timing matters.
* Mutable object state (`CircuitBreaker` fields, the session maps) is passed
  explicitly; each JS method becomes a state-transforming function.
-/

/-! ## Circuit breaker — embedding of `CircuitBreaker` in `src/unnamed/part_006`
    (lines 37–112). -/

inductive CBState where
  | CLOSED
  | OPEN
  | HALF_OPEN
deriving DecidableEq, Repr

/-- The fields of class `CircuitBreaker`: constructor parameters
`failureThreshold`, `resetTimeout`, `halfOpenSuccessThreshold` and the mutable
fields `failures`, `lastFailureTime`, `state`, `consecutiveSuccesses`
(initially `0`, `0`, `CLOSED`, `0`). -/
structure CircuitBreaker where
  failureThreshold : Nat
  resetTimeout : Nat
  halfOpenSuccessThreshold : Nat
  failures : Nat
  lastFailureTime : Nat
  state : CBState
  consecutiveSuccesses : Nat
deriving DecidableEq, Repr

namespace CircuitBreaker

/-- A freshly constructed breaker: `new CircuitBreaker(ft, rt, hst)`. -/
def init (ft rt hst : Nat) : CircuitBreaker :=
  { failureThreshold := ft, resetTimeout := rt, halfOpenSuccessThreshold := hst,
    failures := 0, lastFailureTime := 0, state := .CLOSED, consecutiveSuccesses := 0 }

/-- Method `recordSuccess` (part_006 lines 76–86): zero `failures`; in `HALF_OPEN`
increment `consecutiveSuccesses` and close the breaker once the half-open
success threshold is reached. -/
def recordSuccess (cb : CircuitBreaker) : CircuitBreaker :=
  let cb1 := { cb with failures := 0 }
  match cb1.state with
  | .HALF_OPEN =>
    let cb2 := { cb1 with consecutiveSuccesses := cb1.consecutiveSuccesses + 1 }
    if cb2.consecutiveSuccesses ≥ cb2.halfOpenSuccessThreshold then
      { cb2 with state := .CLOSED, consecutiveSuccesses := 0 }
    else cb2
  | .CLOSED => cb1
  | .OPEN => cb1

/-- Method `recordFailure` (part_006 lines 88–102): increment `failures`, stamp
`lastFailureTime`; a failure in `HALF_OPEN` reopens immediately, otherwise the
breaker opens when the incremented count reaches `failureThreshold`. -/
def recordFailure (cb : CircuitBreaker) (now : Nat) : CircuitBreaker :=
  let cb1 := { cb with failures := cb.failures + 1, lastFailureTime := now }
  match cb1.state with
  | .HALF_OPEN => { cb1 with state := .OPEN, consecutiveSuccesses := 0 }
  | .CLOSED => if cb1.failures ≥ cb1.failureThreshold then { cb1 with state := .OPEN } else cb1
  | .OPEN => if cb1.failures ≥ cb1.failureThreshold then { cb1 with state := .OPEN } else cb1

/-- Result of one `execute` call: the value, a `CircuitBreakerError`
short-circuit, or the underlying operation's failure. -/
inductive ExecOutcome (ε α : Type) where
  | ok (a : α)
  | circuitOpen (msg : String)
  | failed (e : ε)
deriving DecidableEq, Repr

/-- State and observable effects of one `execute` call. `invoked` records
whether the wrapped operation `fn` was called. -/
structure ExecResult (ε α : Type) where
  breaker : CircuitBreaker
  outcome : ExecOutcome ε α
  invoked : Bool
deriving DecidableEq, Repr

/-- The `try { await fn() } catch` body of `execute`: run the (already
gate-approved) operation and record its success or failure. -/
def runOp (cb : CircuitBreaker) (now : Nat) (op : Except ε α) : ExecResult ε α :=
  match op with
  | .ok a => ⟨cb.recordSuccess, .ok a, true⟩
  | .error e => ⟨cb.recordFailure now, .failed e, true⟩

/-- Method `execute` (part_006 lines 49–74): in `OPEN`, either transition to
`HALF_OPEN` when `now - lastFailureTime > resetTimeout` and attempt the call,
or reject with a `CircuitBreakerError` without invoking the operation. -/
def execute (cb : CircuitBreaker) (now : Nat) (op : Except ε α)
    (operationName : String) : ExecResult ε α :=
  match cb.state with
  | .OPEN =>
    if now - cb.lastFailureTime > cb.resetTimeout then
      runOp { cb with state := .HALF_OPEN } now op
    else
      ⟨cb, .circuitOpen ("Circuit breaker is OPEN for " ++ operationName), false⟩
  | .CLOSED => runOp cb now op
  | .HALF_OPEN => runOp cb now op

/-- One recorded event seen by a breaker: a successful call or a failed call
at time `now`. -/
inductive CBEvent where
  | success
  | failure (now : Nat)
deriving DecidableEq, Repr

/-- Apply one event to the breaker. -/
def applyEvent (cb : CircuitBreaker) : CBEvent → CircuitBreaker
  | .success => cb.recordSuccess
  | .failure now => cb.recordFailure now

/-- Apply a whole trace of events, oldest first. -/
def applyEvents (cb : CircuitBreaker) (es : List CBEvent) : CircuitBreaker :=
  es.foldl applyEvent cb

/-- Predicate `noRunReaching k c es = true` iff, starting with `c` consecutive failures
already accumulated, no point of the trace `es` accumulates `k` consecutive
failures (each success resets the run). -/
def noRunReaching (k : Nat) : Nat → List CBEvent → Bool
  | _, [] => true
  | _, .success :: rest => noRunReaching k 0 rest
  | c, .failure _ :: rest => decide (c + 1 < k) && noRunReaching k (c + 1) rest

end CircuitBreaker

/-! ## Retry executor — embedding of `retry` / `withTimeout` in
    `src/unnamed/part_006` (lines 114–201). -/

/-- The JavaScript `Error` values that flow through `retry`:
`TimeoutError`, `RetryableError` (with its `originalError`), and any other
`Error` subclass, identified by its `name` and `message`. -/
inductive JsError where
  | TimeoutError (msg : String)
  | RetryableError (msg : String) (original : Option JsError)
  | GenericError (name : String) (msg : String)
deriving Repr

/-- Decidable equality for `JsError` (not derivable automatically because of
the nested `Option`). -/
def JsError.decEq : (a b : JsError) → Decidable (a = b)
  | .TimeoutError m, .TimeoutError n =>
    if h : m = n then .isTrue (by rw [h]) else .isFalse (by simp [h])
  | .RetryableError m o, .RetryableError n p =>
    if h : m = n then
      match o, p with
      | none, none => .isTrue (by rw [h])
      | some e, some f =>
        match JsError.decEq e f with
        | .isTrue he => .isTrue (by rw [h, he])
        | .isFalse he => .isFalse (by simp [h, he])
      | none, some _ => .isFalse (by simp)
      | some _, none => .isFalse (by simp)
    else .isFalse (by simp [h])
  | .GenericError n1 m1, .GenericError n2 m2 =>
    if h1 : n1 = n2 then
      if h2 : m1 = m2 then .isTrue (by rw [h1, h2])
      else .isFalse (by simp [h2])
    else .isFalse (by simp [h1])
  | .TimeoutError _, .RetryableError _ _ => .isFalse (fun hc => JsError.noConfusion hc)
  | .TimeoutError _, .GenericError _ _ => .isFalse (fun hc => JsError.noConfusion hc)
  | .RetryableError _ _, .TimeoutError _ => .isFalse (fun hc => JsError.noConfusion hc)
  | .RetryableError _ _, .GenericError _ _ => .isFalse (fun hc => JsError.noConfusion hc)
  | .GenericError _ _, .TimeoutError _ => .isFalse (fun hc => JsError.noConfusion hc)
  | .GenericError _ _, .RetryableError _ _ => .isFalse (fun hc => JsError.noConfusion hc)

instance : DecidableEq JsError := JsError.decEq

deriving instance DecidableEq for Except

/-- The accessor `error.message`. -/
def JsError.message : JsError → String
  | .TimeoutError m => m
  | .RetryableError m _ => m
  | .GenericError _ m => m

/-- The test `error instanceof TimeoutError`. -/
def JsError.isTimeoutError : JsError → Bool
  | .TimeoutError _ => true
  | _ => false

/-- The `RetryOptions` of `retry` after destructuring with defaults
(`maxAttempts = 3`, `baseDelay = 100`, `maxDelay = 10000`,
`backoffFactor = 2`, `jitter = true`, `timeout` absent,
`retryOn = () => true`). `retryOn` is the spec's `retryPredicate`. -/
structure RetryConfig where
  maxAttempts : Nat
  baseDelay : ℚ
  maxDelay : ℚ
  backoffFactor : ℚ
  jitter : Bool
  timeout : Option ℚ
  retryOn : JsError → Bool

/-- One invocation of the wrapped operation `fn`: the time its promise takes
to settle and the value or error it settles with. -/
structure Attempt (α : Type) where
  duration : ℚ
  result : Except JsError α
deriving DecidableEq, Repr

/-- The loop guard `if (timeout)` uses JS truthiness: a configured timeout of
`0` behaves as if no timeout were configured. -/
def RetryConfig.effectiveTimeout (o : RetryConfig) : Option ℚ :=
  match o.timeout with
  | some t => if t = 0 then none else some t
  | none => none

/-- The message built by `withTimeout`'s rejection. -/
def timeoutMessage (operationName : String) (t : ℚ) : String :=
  operationName ++ " timed out after " ++ toString t ++ "ms"

/-- Outcome of one loop iteration: `withTimeout(fn(), timeout, name)` when a
timeout is configured (the attempt's promise races a fresh `setTimeout`
timer; the timer wins exactly when the attempt takes longer), else `fn()`. -/
def attemptRes (o : RetryConfig) (operationName : String) (a : Attempt α) :
    Except JsError α :=
  match o.effectiveTimeout with
  | some t =>
    if t < a.duration then .error (.TimeoutError (timeoutMessage operationName t))
    else a.result
  | none => a.result

/-- Wall-clock time consumed by one loop iteration: the timer's deadline when
the race times out, otherwise the attempt's own settle time. -/
def attemptTime (o : RetryConfig) (a : Attempt α) : ℚ :=
  match o.effectiveTimeout with
  | some t => if t < a.duration then t else a.duration
  | none => a.duration

/-- The backoff delay before the next attempt (part_006 lines 154–158):
`min(baseDelay * backoffFactor^(attempt-1), maxDelay)`, scaled by
`0.5 + random * 0.5` when jitter is enabled; `rand` supplies the value of
`Math.random()` observed before attempt `attempt`'s delay. -/
def backoffDelay (o : RetryConfig) (rand : Nat → ℚ) (attempt : Nat) : ℚ :=
  let d := min (o.baseDelay * o.backoffFactor ^ (attempt - 1)) o.maxDelay
  if o.jitter then d * (1/2 + rand attempt * (1/2)) else d

/-- The result of a whole `retry` call together with its observable
effects: how many times `fn` was invoked and the wall-clock time spent
across attempts and backoff delays. -/
structure RetryRun (α : Type) where
  result : Except JsError α
  invocations : Nat
  elapsed : ℚ
deriving DecidableEq, Repr

/-- The code after the loop (part_006 lines 171–180): rethrow a
`TimeoutError` unchanged, otherwise wrap the last error in
`RetryableError("Failed after ${maxAttempts} attempts: …", lastError)`;
with no recorded error the message part is `"Unknown error"`. -/
def finishRetry (o : RetryConfig) (lastError : Option JsError)
    (invocations : Nat) (elapsed : ℚ) : RetryRun α :=
  match lastError with
  | some e =>
    if e.isTimeoutError then ⟨.error e, invocations, elapsed⟩
    else
      ⟨.error (.RetryableError
          ("Failed after " ++ toString o.maxAttempts ++ " attempts: " ++ e.message)
          (some e)),
        invocations, elapsed⟩
  | none =>
    ⟨.error (.RetryableError
        ("Failed after " ++ toString o.maxAttempts ++ " attempts: Unknown error") none),
      invocations, elapsed⟩

/-- The `for (let attempt = 1; attempt <= maxAttempts; attempt++)` loop of
`retry` (part_006 lines 131–169). `remaining` counts the iterations still
allowed (`attempt = maxAttempts` exactly when `remaining = 1`); `lastError`
is the `lastError` variable. A `TimeoutError` is thrown directly; an error
the predicate rejects, or a failure of the final attempt, breaks to
`finishRetry`; otherwise the loop sleeps for the backoff delay and goes
round again. -/
def retryLoop (o : RetryConfig) (operationName : String) (fn : Nat → Attempt α)
    (rand : Nat → ℚ) :
    Nat → Nat → Nat → ℚ → Option JsError → RetryRun α
  | 0, _, invocations, elapsed, lastError => finishRetry o lastError invocations elapsed
  | remaining + 1, attempt, invocations, elapsed, _ =>
    let inv := invocations + 1
    let el := elapsed + attemptTime o (fn attempt)
    match attemptRes o operationName (fn attempt) with
    | .ok v => ⟨.ok v, inv, el⟩
    | .error e =>
      if e.isTimeoutError then ⟨.error e, inv, el⟩
      else if o.retryOn e then
        if remaining = 0 then finishRetry o (some e) inv el
        else
          retryLoop o operationName fn rand remaining (attempt + 1) inv
            (el + backoffDelay o rand attempt) (some e)
      else finishRetry o (some e) inv el

/-- Function `retry(fn, options, operationName)`: run the loop from attempt `1`. -/
def retryRun (o : RetryConfig) (operationName : String) (fn : Nat → Attempt α)
    (rand : Nat → ℚ) : RetryRun α :=
  retryLoop o operationName fn rand o.maxAttempts 1 0 0 none

/-! ## Proxy bridge session — embedding of the `/sse` session wiring in
    `src/unnamed/part_002` (lines 57–149): the `pendingRequests` /
    `messageQueue` state, the stdout line handler, and the teardown
    handlers `proc.on('exit')`, `proc.on('error')`, `res.on('close')`. -/

/-- A JSON-RPC correlation id: a number or a string (the key type of
`pendingRequests : Map<string | number, PendingRequest>`). -/
abbrev MsgId := Nat ⊕ String

instance : BEq MsgId := ⟨fun a b => decide (a = b)⟩

instance : LawfulBEq MsgId :=
  ⟨by intro a b h; simpa [BEq.beq] using h, by intro a; simp [BEq.beq]⟩

/-- A successfully parsed JSON-RPC message: its optional `id` plus the rest
of the payload, kept opaque. -/
structure JsonMsg where
  id : Option MsgId
  payload : String
deriving DecidableEq, Repr

/-- Observable state of one `ProxySession` and its wiring. `pendingIds` is
the key set of `pendingRequests`; `resolveCalls` and `rejectCalls` log each
invocation of a pending entry's `resolve(message)` / `reject(error)` (the
error recorded by its message); `killSignals` logs each `proc.kill`;
`inPool` is membership in the top-level `sessions` map. -/
structure ProxySession where
  inPool : Bool
  pendingIds : List MsgId
  resolveCalls : List (MsgId × JsonMsg)
  rejectCalls : List (MsgId × String)
  messageQueue : List JsonMsg
  killSignals : List String
  intervalsCleared : Bool
deriving DecidableEq, Repr

namespace ProxySession

/-- The per-message branch of the stdout handler (part_002 lines 99–109):
a message whose defined `id` matches a pending request resolves that entry
and removes it from the map; any other message is queued for SSE delivery. -/
def handleParsedMessage (s : ProxySession) (m : JsonMsg) : ProxySession :=
  match m.id with
  | some i =>
    if i ∈ s.pendingIds then
      { s with pendingIds := s.pendingIds.erase i,
               resolveCalls := s.resolveCalls ++ [(i, m)] }
    else { s with messageQueue := s.messageQueue ++ [m] }
  | none => { s with messageQueue := s.messageQueue ++ [m] }

/-- One complete line of stdout (part_002 lines 95–113): blank lines are
skipped (`if (!line.trim()) continue` — the trimmed line is empty exactly
when every character is whitespace); `JSON.parse` failure
(`parse line = none`) logs a diagnostic and drops the line; a parsed message
goes to `handleParsedMessage`. `parse` abstracts the platform's
`JSON.parse`. -/
def handleLine (parse : String → Option JsonMsg) (s : ProxySession)
    (line : String) : ProxySession :=
  if line.data.all Char.isWhitespace then s
  else
    match parse line with
    | some m => handleParsedMessage s m
    | none => s

/-- The `for (const line of lines)` loop over the complete lines of one
data chunk. -/
def handleLines (parse : String → Option JsonMsg) (s : ProxySession)
    (lines : List String) : ProxySession :=
  lines.foldl (handleLine parse) s

/-- The whole `proc.stdout.on('data')` handler (part_002 lines 89–114):
append the chunk to the carry buffer, split on newline, keep the trailing
partial line buffered, and process each complete line. -/
def onStdoutData (parse : String → Option JsonMsg) (s : ProxySession)
    (buffer chunk : String) : ProxySession × String :=
  let buf := buffer ++ chunk
  let parts := buf.splitOn "\n"
  (handleLines parse s parts.dropLast, parts.getLastD "")

/-- Handler `proc.on('exit')` (part_002 lines 71–78): reject every entry still in
`pendingRequests` with `new Error('Process exited')` — without clearing the
map — and delete the session from the `sessions` map. -/
def onProcExit (s : ProxySession) : ProxySession :=
  { s with rejectCalls := s.rejectCalls ++ s.pendingIds.map (fun i => (i, "Process exited")),
           inPool := false }

/-- Handler `proc.on('error')` (part_002 lines 80–86): reject every entry still in
`pendingRequests` with the process error; the map is not cleared and the
session stays registered. -/
def onProcError (s : ProxySession) (errMsg : String) : ProxySession :=
  { s with rejectCalls := s.rejectCalls ++ s.pendingIds.map (fun i => (i, errMsg)) }

/-- Handler `res.on('close')` (part_002 lines 143–149): clear both intervals, send
`SIGTERM` to the process, and delete the session; pending requests are not
touched. -/
def onResClose (s : ProxySession) : ProxySession :=
  { s with intervalsCleared := true,
           killSignals := s.killSignals ++ ["SIGTERM"],
           inPool := false }

end ProxySession

/-! ## Connection pool — embedding of `ConnectionPool` in
    `src/src/utils/connection-pool.ts`. The `Map<string, Session>` is a list
    of sessions with (on reachable states) pairwise-distinct ids, in
    insertion order; `Map.delete` removes the entries bearing the id. -/

/-- One pooled `Session`: its `id`, timestamps, and the behaviour of its
`cleanup` callback (`cleanupOk = true` iff `cleanup()` resolves rather than
rejects). `type` and `metadata` are irrelevant to the claims and omitted. -/
structure PoolSession where
  id : String
  createdAt : Nat
  lastActivity : Nat
  cleanupOk : Bool
deriving DecidableEq, Repr

/-- The `ConnectionPool` state: the session map, the `stats` counters, and a
log of the session ids whose `cleanup()` callback has been invoked. -/
structure ConnectionPool where
  sessions : List PoolSession
  totalSessionsCreated : Nat
  totalSessionsClosed : Nat
  maxConcurrentSessions : Nat
  cleanupsInvoked : List String
deriving DecidableEq, Repr

namespace ConnectionPool

/-- Lookup `this.sessions.get(id)`. -/
def findSession (p : ConnectionPool) (id : String) : Option PoolSession :=
  p.sessions.find? (fun s => s.id == id)

/-- Method `removeSession` (connection-pool.ts lines 68–84): delete the session and
bump `totalSessionsClosed`; `false` when the id is unknown. -/
def removeSession (p : ConnectionPool) (id : String) : ConnectionPool × Bool :=
  match p.findSession id with
  | none => (p, false)
  | some _ =>
    ({ p with sessions := p.sessions.filter (fun s => s.id != id),
              totalSessionsClosed := p.totalSessionsClosed + 1 }, true)

/-- Method `cleanupSession` (connection-pool.ts lines 86–106): invoke the session's
`cleanup()`; whether it resolves or rejects, the session is removed from the
pool; the returned flag is `true` only when cleanup resolved. -/
def cleanupSession (p : ConnectionPool) (id : String) : ConnectionPool × Bool :=
  match p.findSession id with
  | none => (p, false)
  | some s =>
    let p1 := { p with cleanupsInvoked := p.cleanupsInvoked ++ [id] }
    ((removeSession p1 id).1, s.cleanupOk)

/-- Method `updateActivity` (connection-pool.ts lines 108–115): stamp
`lastActivity` with the current time; `false` when the id is unknown. -/
def updateActivity (p : ConnectionPool) (id : String) (now : Nat) :
    ConnectionPool × Bool :=
  match p.findSession id with
  | none => (p, false)
  | some _ =>
    ({ p with sessions :=
        p.sessions.map (fun s => if s.id == id then { s with lastActivity := now } else s) },
      true)

/-- Run `cleanupSession` over a list of ids in order, collecting the returned
flags. Models both the sweep's `for (const id of staleSessions)` loop and
`Promise.all(sessionIds.map(id => this.cleanupSession(id)))` in `shutdown`
(the per-id operations touch disjoint keys, so the sequential order is the
event-loop interleaving). -/
def cleanupAll (p : ConnectionPool) : List String → ConnectionPool × List Bool
  | [] => (p, [])
  | id :: rest =>
    let q := (cleanupSession p id).1
    let r := (cleanupSession p id).2
    let qr := cleanupAll q rest
    (qr.1, r :: qr.2)

/-- The stale-session predicate of the sweep (connection-pool.ts line 129):
`now - session.lastActivity > timeout`. -/
def isStale (now timeout : Nat) (s : PoolSession) : Bool :=
  timeout < now - s.lastActivity

/-- Method `cleanupStaleSessions` (connection-pool.ts lines 123–149), the body of
one sweep tick: collect the ids of sessions inactive past `timeout`, then
clean each of them up. -/
def cleanupStaleSessions (p : ConnectionPool) (now timeout : Nat) : ConnectionPool :=
  let staleIds := (p.sessions.filter (isStale now timeout)).map (fun s => s.id)
  (cleanupAll p staleIds).1

/-- The `{ successful, failed, total }` report of `shutdown`. -/
structure ShutdownReport where
  successful : Nat
  failed : Nat
  total : Nat
deriving DecidableEq, Repr

/-- Method `shutdown` (connection-pool.ts lines 181–203): clean up every session
currently in the pool and count how many cleanups resolved (`true`) and
rejected (`false`). -/
def shutdown (p : ConnectionPool) : ConnectionPool × ShutdownReport :=
  let sessionIds := p.sessions.map (fun s => s.id)
  let pr := cleanupAll p sessionIds
  (pr.1,
   { successful := pr.2.countP (fun r => r),
     failed := pr.2.countP (fun r => !r),
     total := sessionIds.length })

end ConnectionPool

/-! ## Graceful shutdown — embedding of `GracefulShutdown` in
    `src/src/utils/shutdown.ts` and of the cleanup callback installed in
    `src/src/index.ts` (lines 353–377). -/

/-- The observable half of `GracefulShutdown.shutdown` (shutdown.ts lines
42–72): the idempotence flag and, when a shutdown actually runs, the exit
status passed to `process.exit` — `0` when the cleanup callback resolved,
`1` when it rejected. `signal` is the triggering cause string (`'SIGTERM'`,
`'SIGINT'`, `'uncaughtException'`, `'unhandledRejection'`). -/
def gracefulShutdownStep (isShuttingDown : Bool) (_signal : String)
    (cleanupResult : Except String Unit) : Bool × Option Nat :=
  if isShuttingDown then (isShuttingDown, none)
  else
    (true,
     some (match cleanupResult with
           | .ok _ => 0
           | .error _ => 1))

/-- One bridge session as seen by the index.ts shutdown callback: its id
and whether its `kill` + transport `close()` sequence completes without
throwing. -/
structure BridgeCloseSession where
  sessionId : String
  closeOk : Bool
deriving DecidableEq, Repr

/-- What the cleanup callback of index.ts (lines 353–377) does: for every
session, in order, attempt the close sequence inside `try { … } catch`, so a
failure is logged and the loop continues; afterwards both session maps are
cleared. The callback itself always resolves. -/
structure CloseAllOutcome where
  attempted : List String
  failuresLogged : List String
  remainingSessions : Nat
  callbackResult : Except String Unit
deriving DecidableEq, Repr

/-- The `async` cleanup callback passed to `new GracefulShutdown(server, …)`
in index.ts: iterate all sessions, catching and logging per-session close
errors, then clear the maps and resolve. -/
def closeAllSessions (sessions : List BridgeCloseSession) : CloseAllOutcome :=
  { attempted := sessions.map (fun s => s.sessionId),
    failuresLogged := (sessions.filter (fun s => !s.closeOk)).map (fun s => s.sessionId),
    remainingSessions := 0,
    callbackResult := .ok () }

/-! ## Theorems for the claims -/

/-- C5: every parsed stdout message takes exactly one of two paths — a
message whose defined `id` matches a pending request resolves that entry and
removes it from the map (the queue untouched); any other message (no `id`,
or no matching entry) is appended to the outbound queue (pending requests
and resolutions untouched). -/
theorem stdout_message_dispatch (s : ProxySession) (m : JsonMsg) :
    (∀ i, m.id = some i → i ∈ s.pendingIds →
      ProxySession.handleParsedMessage s m =
        { s with pendingIds := s.pendingIds.erase i,
                 resolveCalls := s.resolveCalls ++ [(i, m)] })
  ∧ ((∀ i, m.id = some i → i ∉ s.pendingIds) →
      ProxySession.handleParsedMessage s m =
        { s with messageQueue := s.messageQueue ++ [m] }) := by
  constructor
  · intro i hi hmem
    simp [ProxySession.handleParsedMessage, hi, hmem]
  · intro h
    match hm : m.id with
    | none => simp [ProxySession.handleParsedMessage, hm]
    | some i =>
      have := h i hm
      simp [ProxySession.handleParsedMessage, hm, this]

/-- Witness for C5: a concrete response with id 1 resolves the pending entry
and removes it; a concrete notification without id is queued. -/
theorem stdout_message_dispatch_witness :
    ProxySession.handleParsedMessage
        ⟨true, [Sum.inl 1], [], [], [], [], false⟩ ⟨some (Sum.inl 1), "resp"⟩ =
      ⟨true, [], [(Sum.inl 1, ⟨some (Sum.inl 1), "resp"⟩)], [], [], [], false⟩ ∧
    ProxySession.handleParsedMessage
        ⟨true, [Sum.inl 1], [], [], [], [], false⟩ ⟨none, "notif"⟩ =
      ⟨true, [Sum.inl 1], [], [], [⟨none, "notif"⟩], [], false⟩ := by
  constructor
  · have h := (stdout_message_dispatch
      ⟨true, [Sum.inl 1], [], [], [], [], false⟩ ⟨some (Sum.inl 1), "resp"⟩).1
      (Sum.inl 1) rfl (by decide)
    simpa using h
  · have h := (stdout_message_dispatch
      ⟨true, [Sum.inl 1], [], [], [], [], false⟩ ⟨none, "notif"⟩).2
      (by intro i hi; exact Option.noConfusion hi)
    simpa using h

/-- C6: a stdout line that fails to parse as JSON is dropped — the session
state is unchanged, nothing is forwarded — and processing continues with the
following lines exactly as if the malformed line had not been there. -/
theorem malformed_line_dropped (parse : String → Option JsonMsg)
    (s : ProxySession) (bad : String) (rest : List String)
    (hbad : parse bad = none) :
    ProxySession.handleLine parse s bad = s ∧
    ProxySession.handleLines parse s (bad :: rest) =
      ProxySession.handleLines parse s rest := by
  have h1 : ProxySession.handleLine parse s bad = s := by
    unfold ProxySession.handleLine
    split
    · rfl
    · rw [hbad]
  exact ⟨h1, by simp [ProxySession.handleLines, h1]⟩

/-- Witness for C6: with a parser that accepts only the line `"good"`, the
malformed line `"oops"` is dropped and the well-formed line after it is
still processed and queued. -/
theorem malformed_line_dropped_witness :
    ProxySession.handleLines (fun l => if l = "good" then some ⟨none, "ok"⟩ else none)
        ⟨true, [], [], [], [], [], false⟩ ["oops", "good"] =
      ProxySession.handleLines (fun l => if l = "good" then some ⟨none, "ok"⟩ else none)
        ⟨true, [], [], [], [], [], false⟩ ["good"] ∧
    ProxySession.handleLines (fun l => if l = "good" then some ⟨none, "ok"⟩ else none)
        ⟨true, [], [], [], [], [], false⟩ ["oops", "good"] =
      ⟨true, [], [], [], [⟨none, "ok"⟩], [], false⟩ := by
  have h := (malformed_line_dropped
    (fun l => if l = "good" then some ⟨none, "ok"⟩ else none)
    ⟨true, [], [], [], [], [], false⟩ "oops" ["good"] (by decide)).2
  refine ⟨h, ?_⟩
  rw [h]
  decide

/-- C1 counterexample: with one pending request (id 1), firing the
process-error handler and then the process-exit handler rejects that request
twice — once with the process error and once with `'Process exited'` — never
with a "session closed" error, and neither handler kills the process. This
refutes "killed exactly once, every still-pending request rejected exactly
once with a session-closed error, subsequent invocations are no-ops". -/
theorem teardown_not_idempotent_counterexample :
    (ProxySession.onProcExit (ProxySession.onProcError
        ⟨true, [Sum.inl 1], [], [], [], [], false⟩ "spawn failed")).rejectCalls =
      [(Sum.inl 1, "spawn failed"), (Sum.inl 1, "Process exited")] ∧
    ((ProxySession.onProcExit (ProxySession.onProcError
        ⟨true, [Sum.inl 1], [], [], [], [], false⟩ "spawn failed")).rejectCalls.countP
      (fun r => r.2 == "session closed")) = 0 ∧
    (ProxySession.onProcExit (ProxySession.onProcError
        ⟨true, [Sum.inl 1], [], [], [], [], false⟩ "spawn failed")).killSignals = [] := by
  decide

/-- C1 amended: teardown is split across three non-idempotent handlers
rather than one `close()` routine. The process-error handler rejects every
still-pending request with the process error, leaving the pending map and
the session registration untouched; the process-exit handler rejects every
still-pending request with a `'Process exited'` error without clearing the
pending map; the streaming-side-closed handler kills the process and removes
the session without rejecting anything, and a second invocation sends a
second kill signal. Hence a request pending across several triggers is
rejected once per trigger, never with a "session closed" error. -/
theorem teardown_handlers_characterization (s : ProxySession) (errMsg : String) :
    (ProxySession.onProcExit (ProxySession.onProcError s errMsg)).rejectCalls =
      s.rejectCalls ++ s.pendingIds.map (fun i => (i, errMsg))
        ++ s.pendingIds.map (fun i => (i, "Process exited")) ∧
    (ProxySession.onProcError s errMsg).inPool = s.inPool ∧
    (ProxySession.onProcError s errMsg).pendingIds = s.pendingIds ∧
    (ProxySession.onProcError s errMsg).killSignals = s.killSignals ∧
    (ProxySession.onProcExit s).pendingIds = s.pendingIds ∧
    (ProxySession.onProcExit s).killSignals = s.killSignals ∧
    (ProxySession.onProcExit s).inPool = false ∧
    (ProxySession.onResClose s).rejectCalls = s.rejectCalls ∧
    (ProxySession.onResClose s).pendingIds = s.pendingIds ∧
    (ProxySession.onResClose s).inPool = false ∧
    (ProxySession.onResClose (ProxySession.onResClose s)).killSignals =
      s.killSignals ++ ["SIGTERM", "SIGTERM"] := by
  refine ⟨?_, rfl, rfl, rfl, rfl, rfl, rfl, rfl, rfl, rfl, ?_⟩
  · simp [ProxySession.onProcExit, ProxySession.onProcError]
  · simp [ProxySession.onResClose]

/-- C8 counterexample: a shutdown triggered by a fatal cause
(`'uncaughtException'`) whose cleanup callback resolves exits with status 0,
not 1 — the exit status is not determined by the triggering cause. -/
theorem shutdown_exit_code_counterexample :
    gracefulShutdownStep false "uncaughtException" (.ok ()) = (true, some 0) ∧
    ¬ gracefulShutdownStep false "uncaughtException" (.ok ()) = (true, some 1) := by
  decide

/-- C8 amended: on shutdown every session is asked to close, per-session
cleanup failures are logged and not retried (the index.ts cleanup callback
never rejects), a second shutdown call is a no-op, and the exit status is
determined solely by the cleanup callback's outcome — 0 when it resolves,
1 when it rejects — regardless of the triggering cause. -/
theorem shutdown_exit_status_characterization (signal : String)
    (sessions : List BridgeCloseSession) :
    gracefulShutdownStep true signal (.ok ()) = (true, none) ∧
    (∀ e, gracefulShutdownStep true signal (.error e) = (true, none)) ∧
    gracefulShutdownStep false signal (.ok ()) = (true, some 0) ∧
    (∀ e, gracefulShutdownStep false signal (.error e) = (true, some 1)) ∧
    (closeAllSessions sessions).attempted = sessions.map (fun s => s.sessionId) ∧
    (closeAllSessions sessions).callbackResult = .ok () ∧
    (closeAllSessions sessions).remainingSessions = 0 := by
  exact ⟨rfl, fun _ => rfl, rfl, fun _ => rfl, rfl, rfl, rfl⟩

/-- In `CLOSED` state, `recordSuccess` only zeroes the failure counter. -/
theorem recordSuccess_closed (cb : CircuitBreaker) (h : cb.state = .CLOSED) :
    cb.recordSuccess = { cb with failures := 0 } := by
  unfold CircuitBreaker.recordSuccess
  simp only [h]

/-- In `CLOSED` state, a failure that keeps the incremented counter below
the threshold only counts the failure and stamps the time. -/
theorem recordFailure_closed_small (cb : CircuitBreaker) (now : Nat)
    (h : cb.state = .CLOSED) (hlt : cb.failures + 1 < cb.failureThreshold) :
    cb.recordFailure now = { cb with failures := cb.failures + 1, lastFailureTime := now } := by
  unfold CircuitBreaker.recordFailure
  simp only [h]
  rw [if_neg]
  omega

/-- C2: the circuit breaker follows the specified state machine: it starts
`CLOSED` with zero failures; in `CLOSED`, a recorded failure opens the
breaker exactly when the incremented count reaches `failureThreshold`; in
`OPEN` before `resetTimeout` has elapsed since the last failure, `execute`
rejects with the `CircuitBreakerError` without invoking the operation; once
more than `resetTimeout` has elapsed, the next `execute` probes in
`HALF_OPEN` and does invoke the operation; a success in `HALF_OPEN` that
reaches `halfOpenSuccessThreshold` closes the breaker with the failure count
reset to 0; a single failure in `HALF_OPEN` reopens it. -/
theorem circuit_breaker_state_machine :
    (∀ ft rt hst, (CircuitBreaker.init ft rt hst).state = .CLOSED ∧
        (CircuitBreaker.init ft rt hst).failures = 0)
  ∧ (∀ (cb : CircuitBreaker) (now : Nat), cb.state = .CLOSED →
      ((cb.recordFailure now).state = .OPEN ↔ cb.failureThreshold ≤ cb.failures + 1))
  ∧ (∀ (cb : CircuitBreaker) (now : Nat) (op : Except JsError Nat) (nm : String),
      cb.state = .OPEN → now - cb.lastFailureTime ≤ cb.resetTimeout →
      CircuitBreaker.execute cb now op nm =
        ⟨cb, .circuitOpen ("Circuit breaker is OPEN for " ++ nm), false⟩)
  ∧ (∀ (cb : CircuitBreaker) (now : Nat) (op : Except JsError Nat) (nm : String),
      cb.state = .OPEN → cb.resetTimeout < now - cb.lastFailureTime →
      CircuitBreaker.execute cb now op nm =
        CircuitBreaker.runOp { cb with state := .HALF_OPEN } now op ∧
      (CircuitBreaker.execute cb now op nm).invoked = true)
  ∧ (∀ cb : CircuitBreaker, cb.state = .HALF_OPEN →
      cb.halfOpenSuccessThreshold ≤ cb.consecutiveSuccesses + 1 →
      (cb.recordSuccess).state = .CLOSED ∧ (cb.recordSuccess).failures = 0 ∧
      (cb.recordSuccess).consecutiveSuccesses = 0)
  ∧ (∀ (cb : CircuitBreaker) (now : Nat), cb.state = .HALF_OPEN →
      (cb.recordFailure now).state = .OPEN ∧ (cb.recordFailure now).consecutiveSuccesses = 0) := by
  refine ⟨fun ft rt hst => ⟨rfl, rfl⟩, ?_, ?_, ?_, ?_, ?_⟩
  · intro cb now h
    unfold CircuitBreaker.recordFailure
    simp only [h]
    split
    · next hge =>
      exact ⟨fun _ => by simpa using hge, fun _ => rfl⟩
    · next hlt =>
      refine ⟨fun hc => ?_, fun hc => ?_⟩
      · simp at hc
      · exact absurd hc (by simpa using hlt)
  · intro cb now op nm h h2
    unfold CircuitBreaker.execute
    simp only [h]
    rw [if_neg]
    omega
  · intro cb now op nm h h2
    unfold CircuitBreaker.execute
    simp only [h]
    rw [if_pos (by omega)]
    refine ⟨rfl, ?_⟩
    unfold CircuitBreaker.runOp
    match op with
    | .ok a => rfl
    | .error e => rfl
  · intro cb h hge
    unfold CircuitBreaker.recordSuccess
    simp only [h]
    rw [if_pos (by simpa using hge)]
    exact ⟨rfl, rfl, rfl⟩
  · intro cb now h
    unfold CircuitBreaker.recordFailure
    simp [h]

/-- Witness for C2 at the spec's example parameters (`failureThreshold = 2`,
`halfOpenSuccessThreshold = 1`): the second consecutive failure opens the
breaker; a call 50ms after the failure with `resetTimeout = 100` is rejected
without invoking the operation; a success in the `HALF_OPEN` probe closes
the breaker with the failure count reset to 0. -/
theorem circuit_breaker_state_machine_witness :
    (CircuitBreaker.recordFailure ⟨2, 100, 1, 1, 0, .CLOSED, 0⟩ 5).state = .OPEN ∧
    CircuitBreaker.execute ⟨2, 100, 1, 2, 5, .OPEN, 0⟩ 55
        (Except.ok 7 : Except JsError Nat) "op" =
      ⟨⟨2, 100, 1, 2, 5, .OPEN, 0⟩,
        .circuitOpen "Circuit breaker is OPEN for op", false⟩ ∧
    (CircuitBreaker.recordSuccess ⟨2, 100, 1, 0, 5, .HALF_OPEN, 0⟩).state = .CLOSED ∧
    (CircuitBreaker.recordSuccess ⟨2, 100, 1, 0, 5, .HALF_OPEN, 0⟩).failures = 0 := by
  refine ⟨?_, ?_, ?_, ?_⟩
  · exact (circuit_breaker_state_machine.2.1 ⟨2, 100, 1, 1, 0, .CLOSED, 0⟩ 5 rfl).mpr
      (by decide)
  · exact circuit_breaker_state_machine.2.2.1 ⟨2, 100, 1, 2, 5, .OPEN, 0⟩ 55
      (Except.ok 7 : Except JsError Nat) "op" rfl (by decide)
  · exact (circuit_breaker_state_machine.2.2.2.2.1 ⟨2, 100, 1, 0, 5, .HALF_OPEN, 0⟩
      rfl (by decide)).1
  · exact (circuit_breaker_state_machine.2.2.2.2.1 ⟨2, 100, 1, 0, 5, .HALF_OPEN, 0⟩
      rfl (by decide)).2.1

/-- C9: a successful execution resets the failure counter in every state of
the breaker, so starting from `CLOSED` the breaker stays `CLOSED` along any
event trace in which no `failureThreshold` consecutive failures occur —
failures accumulated across interleaved successes never open it. -/
theorem success_resets_failure_count :
    (∀ cb : CircuitBreaker, (cb.recordSuccess).failures = 0)
  ∧ (∀ (cb : CircuitBreaker) (events : List CircuitBreaker.CBEvent) (c : Nat),
      cb.state = .CLOSED → cb.failures = c →
      CircuitBreaker.noRunReaching cb.failureThreshold c events = true →
      (CircuitBreaker.applyEvents cb events).state = .CLOSED) := by
  constructor
  · intro cb
    unfold CircuitBreaker.recordSuccess
    match h : cb.state with
    | .HALF_OPEN => simp only [h]; split <;> rfl
    | .CLOSED => simp only [h]
    | .OPEN => simp only [h]
  · intro cb events
    induction events generalizing cb with
    | nil =>
      intro c h1 _ _
      simpa [CircuitBreaker.applyEvents] using h1
    | cons e rest ih =>
      intro c h1 h2 h3
      cases e with
      | success =>
        have hs := recordSuccess_closed cb h1
        have : CircuitBreaker.applyEvents cb (.success :: rest) =
            CircuitBreaker.applyEvents cb.recordSuccess rest := rfl
        rw [this, hs]
        exact ih { cb with failures := 0 } 0 h1 rfl (by
          simpa [CircuitBreaker.noRunReaching] using h3)
      | failure now =>
        have h3' : (c + 1 < cb.failureThreshold) ∧
            CircuitBreaker.noRunReaching cb.failureThreshold (c + 1) rest = true := by
          have := h3
          simp only [CircuitBreaker.noRunReaching, Bool.and_eq_true, decide_eq_true_eq] at this
          exact this
        have hf := recordFailure_closed_small cb now h1 (by omega)
        have : CircuitBreaker.applyEvents cb (.failure now :: rest) =
            CircuitBreaker.applyEvents (cb.recordFailure now) rest := rfl
        rw [this, hf]
        exact ih { cb with failures := cb.failures + 1, lastFailureTime := now }
          (c + 1) h1 (by simp [h2]) h3'.2

/-- Witness for C9: with `failureThreshold = 2`, three failures interleaved
with successes (never two in a row) leave the breaker `CLOSED`, and a
success after four failures in the `OPEN` state still zeroes the counter. -/
theorem success_resets_failure_count_witness :
    (CircuitBreaker.recordSuccess ⟨5, 30000, 3, 4, 7, .OPEN, 0⟩).failures = 0 ∧
    (CircuitBreaker.applyEvents (CircuitBreaker.init 2 100 1)
      [.failure 1, .success, .failure 2, .success, .failure 3]).state = .CLOSED := by
  exact ⟨success_resets_failure_count.1 ⟨5, 30000, 3, 4, 7, .OPEN, 0⟩,
    success_resets_failure_count.2 (CircuitBreaker.init 2 100 1)
      [.failure 1, .success, .failure 2, .success, .failure 3] 0 rfl rfl (by decide)⟩

/-- C3 counterexample: with `retryOn` (the retry predicate) constantly
false, the operation failing once with a generic error `"boom"` is invoked
exactly once — but the surfaced error is a `RetryableError` aggregate
wrapping the original, not the original error itself. This refutes "the
error surfaced to the caller is e itself, unwrapped". -/
theorem retry_predicate_unwrapped_counterexample :
    (retryRun ⟨3, 100, 10000, 2, false, none, fun _ => false⟩ "operation"
        (fun _ => (⟨0, .error (.GenericError "Error" "boom")⟩ : Attempt Nat))
        (fun _ => 0)).invocations = 1 ∧
    (retryRun ⟨3, 100, 10000, 2, false, none, fun _ => false⟩ "operation"
        (fun _ => (⟨0, .error (.GenericError "Error" "boom")⟩ : Attempt Nat))
        (fun _ => 0)).result =
      .error (.RetryableError "Failed after 3 attempts: boom"
        (some (.GenericError "Error" "boom"))) ∧
    ¬ (retryRun ⟨3, 100, 10000, 2, false, none, fun _ => false⟩ "operation"
        (fun _ => (⟨0, .error (.GenericError "Error" "boom")⟩ : Attempt Nat))
        (fun _ => 0)).result = .error (.GenericError "Error" "boom") := by
  refine ⟨by decide, by decide, by decide⟩

/-- C3 amended: if the retry predicate returns false after the first attempt
fails with a non-timeout error `e`, no further attempt is made (exactly one
invocation) and the surfaced error is
`RetryableError("Failed after maxAttempts attempts: e.message")` carrying `e`
as its `originalError` — only a `TimeoutError` is surfaced unwrapped. -/
theorem retry_predicate_false_stops_and_wraps
    (o : RetryConfig) (opName : String) (fn : Nat → Attempt Nat) (rand : Nat → ℚ)
    (e : JsError) (r : Nat)
    (hmax : o.maxAttempts = r + 1)
    (h1 : attemptRes o opName (fn 1) = .error e)
    (ht : e.isTimeoutError = false)
    (hp : o.retryOn e = false) :
    (retryRun o opName fn rand).invocations = 1 ∧
    (retryRun o opName fn rand).result =
      .error (.RetryableError
        ("Failed after " ++ toString o.maxAttempts ++ " attempts: " ++ e.message)
        (some e)) := by
  unfold retryRun
  rw [hmax]
  simp [retryLoop, h1, ht, hp, finishRetry, hmax]

/-- Witness for the amended C3 at a concrete run (`maxAttempts = 1`). -/
theorem retry_predicate_false_stops_and_wraps_witness :
    (retryRun ⟨1, 100, 10000, 2, true, none, fun _ => false⟩ "op"
        (fun _ => (⟨5, .error (.GenericError "Error" "nope")⟩ : Attempt Nat))
        (fun _ => 0)).invocations = 1 ∧
    (retryRun ⟨1, 100, 10000, 2, true, none, fun _ => false⟩ "op"
        (fun _ => (⟨5, .error (.GenericError "Error" "nope")⟩ : Attempt Nat))
        (fun _ => 0)).result =
      .error (.RetryableError "Failed after 1 attempts: nope"
        (some (.GenericError "Error" "nope"))) := by
  have h := retry_predicate_false_stops_and_wraps
    ⟨1, 100, 10000, 2, true, none, fun _ => false⟩ "op"
    (fun _ => (⟨5, .error (.GenericError "Error" "nope")⟩ : Attempt Nat))
    (fun _ => 0) (.GenericError "Error" "nope") 0 rfl (by decide) (by decide) rfl
  exact ⟨h.1, by rw [h.2]; decide⟩

/-- C4 counterexample: with a configured `timeout` of 100, a first attempt
taking 60 that fails retryably, a backoff delay of 10, and a second attempt
taking 60 that succeeds, the whole retry operation spans 130 — exceeding the
timeout — yet returns the success instead of failing with a `TimeoutError`.
The timer is raced per attempt, not against the whole operation. -/
theorem retry_overall_timeout_counterexample :
    (⟨2, 10, 10000, 2, false, some 100, fun _ => true⟩ : RetryConfig).timeout = some 100 ∧
    (retryRun ⟨2, 10, 10000, 2, false, some 100, fun _ => true⟩ "operation"
        (fun n => if n = 1 then (⟨60, .error (.GenericError "Error" "flaky")⟩ : Attempt Nat)
                  else ⟨60, .ok 42⟩)
        (fun _ => 0)).result = .ok 42 ∧
    (retryRun ⟨2, 10, 10000, 2, false, some 100, fun _ => true⟩ "operation"
        (fun n => if n = 1 then (⟨60, .error (.GenericError "Error" "flaky")⟩ : Attempt Nat)
                  else ⟨60, .ok 42⟩)
        (fun _ => 0)).elapsed = 130 ∧
    (100 : ℚ) < 130 := by
  refine ⟨rfl, by decide, ?_, by norm_num⟩
  norm_num [retryRun, retryLoop, attemptRes, attemptTime, backoffDelay,
    RetryConfig.effectiveTimeout, JsError.isTimeoutError, finishRetry]

/-- Along the retry loop, a `RetryableError` result never wraps a
`TimeoutError`: the wrap is built only from a recorded non-timeout error. -/
theorem retryLoop_wrap_not_timeout
    (o : RetryConfig) (opName : String) (fn : Nat → Attempt Nat) (rand : Nat → ℚ) :
    ∀ (remaining attempt invocations : Nat) (elapsed : ℚ) (lastErr : Option JsError),
      (∀ e0, lastErr = some e0 → e0.isTimeoutError = false) →
      ∀ (msg : String) (orig : Option JsError) (e : JsError),
        (retryLoop o opName fn rand remaining attempt invocations elapsed lastErr).result =
          .error (.RetryableError msg orig) → orig = some e → e.isTimeoutError = false := by
  intro remaining
  induction remaining with
  | zero =>
    intro attempt invocations elapsed lastErr hlast msg orig e hres horig
    match lastErr, hlast with
    | none, _ =>
      simp [retryLoop, finishRetry] at hres
      exact Option.noConfusion (hres.2.trans horig)
    | some e0, hlast =>
      have he0 : e0.isTimeoutError = false := hlast e0 rfl
      simp [retryLoop, finishRetry, he0] at hres
      have h4 := hres.2.trans horig
      injection h4 with h5
      exact h5 ▸ he0
  | succ r ih =>
    intro attempt invocations elapsed lastErr hlast msg orig e hres horig
    match ha : attemptRes o opName (fn attempt) with
    | .ok v =>
      simp [retryLoop, ha] at hres
    | .error e1 =>
      by_cases ht : e1.isTimeoutError
      · simp [retryLoop, ha, ht] at hres
        rw [hres] at ht
        simp [JsError.isTimeoutError] at ht
      · have ht2 : e1.isTimeoutError = false := by
          cases hb : e1.isTimeoutError
          · rfl
          · exact absurd hb ht
        by_cases hp : o.retryOn e1
        · by_cases hr : r = 0
          · subst hr
            simp [retryLoop, ha, ht2, hp, finishRetry] at hres
            have h4 := hres.2.trans horig
            injection h4 with h5
            exact h5 ▸ ht2
          · simp [retryLoop, ha, ht2, hp, hr, finishRetry] at hres
            exact ih (attempt + 1) (invocations + 1)
              (elapsed + attemptTime o (fn attempt) + backoffDelay o rand attempt)
              (some e1)
              (fun e0 h0 => by injection h0 with h0h; exact h0h ▸ ht2)
              msg orig e hres horig
        · have hp2 : o.retryOn e1 = false := by
            cases hb : o.retryOn e1
            · rfl
            · exact absurd hb hp
          simp [retryLoop, ha, ht2, hp2, finishRetry] at hres
          have h4 := hres.2.trans horig
          injection h4 with h5
          exact h5 ▸ ht2

/-- C4 amended: the configured `timeout` races each attempt individually
against a fresh timer, not the whole operation: whatever has already elapsed
across earlier attempts and backoff delays, an attempt whose race produces a
`TimeoutError` makes the loop return that `TimeoutError` as-is, immediately;
and a `TimeoutError` is never reclassified — a `RetryableError` result never
wraps one. -/
theorem retry_timeout_per_attempt :
    (∀ (o : RetryConfig) (opName : String) (fn : Nat → Attempt Nat) (rand : Nat → ℚ)
       (r attempt invocations : Nat) (elapsed : ℚ) (lastErr : Option JsError) (m : String),
      attemptRes o opName (fn attempt) = .error (.TimeoutError m) →
      retryLoop o opName fn rand (r + 1) attempt invocations elapsed lastErr =
        ⟨.error (.TimeoutError m), invocations + 1, elapsed + attemptTime o (fn attempt)⟩)
  ∧ (∀ (o : RetryConfig) (opName : String) (fn : Nat → Attempt Nat) (rand : Nat → ℚ)
       (msg : String) (orig : Option JsError) (e : JsError),
      (retryRun o opName fn rand).result = .error (.RetryableError msg orig) →
      orig = some e → e.isTimeoutError = false) := by
  constructor
  · intro o opName fn rand r attempt invocations elapsed lastErr m h
    simp only [retryLoop, h, JsError.isTimeoutError, if_true]
  · intro o opName fn rand msg orig e hres horig
    exact retryLoop_wrap_not_timeout o opName fn rand o.maxAttempts 1 0 0 none
      (fun e0 h0 => Option.noConfusion h0) msg orig e hres horig

/-- Witness for the amended C4: an attempt racing a 50ms timer while 1000ms
have already elapsed still fails with its own fresh `TimeoutError`,
surfaced immediately and unwrapped. -/
theorem retry_timeout_per_attempt_witness :
    retryLoop ⟨5, 100, 10000, 2, true, some 50, fun _ => true⟩ "op"
        (fun _ => (⟨80, .ok 1⟩ : Attempt Nat)) (fun _ => 0) 3 3 7 1000 none =
      ⟨.error (.TimeoutError "op timed out after 50ms"), 8, 1050⟩ := by
  have h := retry_timeout_per_attempt.1 ⟨5, 100, 10000, 2, true, some 50, fun _ => true⟩
    "op" (fun _ => (⟨80, .ok 1⟩ : Attempt Nat)) (fun _ => 0) 2 3 7 1000 none
    "op timed out after 50ms" (by decide)
  rw [h]
  norm_num [attemptTime, RetryConfig.effectiveTimeout]

namespace ConnectionPool

theorem mem_removeSession (p : ConnectionPool) (id : String) (t : PoolSession) :
    t ∈ ((removeSession p id).1).sessions ↔ (t ∈ p.sessions ∧ ¬ t.id = id) := by
  unfold removeSession
  cases h : p.findSession id with
  | none =>
    simp only
    constructor
    · intro ht
      refine ⟨ht, ?_⟩
      have := List.find?_eq_none.mp h t ht
      simpa using this
    · exact fun ht => ht.1
  | some s =>
    simp only [List.mem_filter]
    constructor
    · intro ht
      exact ⟨ht.1, by simpa using ht.2⟩
    · intro ht
      exact ⟨ht.1, by simpa using ht.2⟩

theorem log_removeSession (p : ConnectionPool) (id : String) :
    ((removeSession p id).1).cleanupsInvoked = p.cleanupsInvoked := by
  unfold removeSession
  cases h : p.findSession id <;> rfl

theorem mem_cleanupSession (p : ConnectionPool) (id : String) (t : PoolSession) :
    t ∈ ((cleanupSession p id).1).sessions ↔ (t ∈ p.sessions ∧ ¬ t.id = id) := by
  unfold cleanupSession
  cases h : p.findSession id with
  | none =>
    simp only
    constructor
    · intro ht
      refine ⟨ht, ?_⟩
      have := List.find?_eq_none.mp h t ht
      simpa using this
    · exact fun ht => ht.1
  | some s =>
    exact mem_removeSession { p with cleanupsInvoked := p.cleanupsInvoked ++ [id] } id t

theorem log_cleanupSession_mono (p : ConnectionPool) (id : String) :
    p.cleanupsInvoked ⊆ ((cleanupSession p id).1).cleanupsInvoked := by
  unfold cleanupSession
  cases h : p.findSession id with
  | none => exact fun a ha => ha
  | some s =>
    intro a ha
    rw [log_removeSession]
    exact List.mem_append_left _ ha

theorem log_cleanupSession_self (p : ConnectionPool) (id : String) (s : PoolSession)
    (h : p.findSession id = some s) :
    id ∈ ((cleanupSession p id).1).cleanupsInvoked := by
  unfold cleanupSession
  rw [h]
  simp only [log_removeSession]
  exact List.mem_append_right _ (List.mem_singleton.mpr rfl)

theorem mem_cleanupAll (ids : List String) (p : ConnectionPool) (t : PoolSession) :
    t ∈ ((cleanupAll p ids).1).sessions ↔ (t ∈ p.sessions ∧ ¬ t.id ∈ ids) := by
  induction ids generalizing p with
  | nil => simp [cleanupAll]
  | cons id rest ih =>
    simp only [cleanupAll]
    rw [ih]
    rw [mem_cleanupSession]
    simp only [List.mem_cons]
    tauto

theorem log_cleanupAll_mono (ids : List String) (p : ConnectionPool) :
    p.cleanupsInvoked ⊆ ((cleanupAll p ids).1).cleanupsInvoked := by
  induction ids generalizing p with
  | nil => exact fun a ha => ha
  | cons id rest ih =>
    intro a ha
    exact ih (cleanupSession p id).1 (log_cleanupSession_mono p id ha)

theorem findSession_of_mem (p : ConnectionPool) (id : String)
    (h : ∃ s ∈ p.sessions, s.id = id) : ∃ s, p.findSession id = some s := by
  obtain ⟨s, hs, hid⟩ := h
  unfold findSession
  cases hf : p.sessions.find? (fun s => s.id == id) with
  | none =>
    have := List.find?_eq_none.mp hf s hs
    simp [hid] at this
  | some s0 => exact ⟨s0, rfl⟩

theorem invoked_cleanupAll (ids : List String) (p : ConnectionPool)
    (hnd : ids.Nodup) (hmem : ∀ id ∈ ids, ∃ s ∈ p.sessions, s.id = id) :
    ∀ id ∈ ids, id ∈ ((cleanupAll p ids).1).cleanupsInvoked := by
  induction ids generalizing p with
  | nil => intro id h; exact absurd h (List.not_mem_nil id)
  | cons id0 rest ih =>
    intro id hid
    rcases List.mem_cons.mp hid with heq | htail
    · subst heq
      obtain ⟨s0, hfind⟩ := findSession_of_mem p id (hmem id (List.mem_cons_self _ _))
      exact log_cleanupAll_mono rest (cleanupSession p id).1
        (log_cleanupSession_self p id s0 hfind)
    · have hnd2 := hnd.of_cons
      have hne : id ≠ id0 := by
        intro hc
        subst hc
        exact (List.nodup_cons.mp hnd).1 htail
      refine ih (cleanupSession p id0).1 hnd2 ?_ id htail
      intro j hj
      obtain ⟨s, hs, hsid⟩ := hmem j (List.mem_cons_of_mem _ hj)
      refine ⟨s, (mem_cleanupSession p id0 s).mpr ⟨hs, ?_⟩, hsid⟩
      intro hc
      have : j ≠ id0 := by
        intro hjc
        subst hjc
        exact (List.nodup_cons.mp hnd).1 hj
      exact this (hsid ▸ hc)

theorem len_cleanupAll (ids : List String) (p : ConnectionPool) :
    ((cleanupAll p ids).2).length = ids.length := by
  induction ids generalizing p with
  | nil => rfl
  | cons id rest ih => simp [cleanupAll, ih]

theorem countP_bool (l : List Bool) :
    l.countP (fun r => r) + l.countP (fun r => !r) = l.length := by
  induction l with
  | nil => rfl
  | cons b rest ih =>
    cases b <;> simp [List.countP_cons, ← ih] <;> omega

end ConnectionPool

namespace ConnectionPool

theorem ids_updateActivity (p : ConnectionPool) (id : String) (now : Nat) :
    ((updateActivity p id now).1).sessions.map (fun s => s.id) =
      p.sessions.map (fun s => s.id) := by
  unfold updateActivity
  cases h : p.findSession id with
  | none => rfl
  | some s =>
    simp only [List.map_map]
    apply List.map_congr_left
    intro a _
    by_cases hb : a.id == id
    · have hba : a.id = id := by simpa using hb
      simp [Function.comp, hb, hba]
    · simp [Function.comp, hb]

theorem updateActivity_lastActivity (p : ConnectionPool) (id : String) (now : Nat) :
    ∀ s ∈ ((updateActivity p id now).1).sessions, s.id = id → s.lastActivity = now := by
  unfold updateActivity
  cases h : p.findSession id with
  | none =>
    intro s hs hid
    have := List.find?_eq_none.mp h s hs
    simp [hid] at this
  | some s0 =>
    intro s hs hid
    obtain ⟨a, ha, hae⟩ := List.mem_map.mp hs
    by_cases hb : a.id == id
    · rw [if_pos hb] at hae
      rw [← hae]
    · rw [if_neg hb] at hae
      rw [← hae] at hid
      simp [hid] at hb

theorem fresh_survives (p : ConnectionPool) (now timeout : Nat)
    (hnd : (p.sessions.map (fun s => s.id)).Nodup) (s : PoolSession)
    (hs : s ∈ p.sessions) (hfresh : isStale now timeout s = false) :
    s ∈ (cleanupStaleSessions p now timeout).sessions := by
  unfold cleanupStaleSessions
  apply (mem_cleanupAll _ p s).mpr
  refine ⟨hs, ?_⟩
  intro hmem
  obtain ⟨s', hs', hid⟩ := List.mem_map.mp hmem
  have hs'2 := List.mem_filter.mp hs'
  have heq : s' = s := List.inj_on_of_nodup_map hnd hs'2.1 hs hid
  rw [heq] at hs'2
  rw [hs'2.2] at hfresh
  exact Bool.noConfusion hfresh

end ConnectionPool

/-- C7: on a sweep tick, every session whose inactivity `now - lastActivity`
exceeds the configured timeout has its `cleanup` invoked and is evicted from
the pool; every session whose inactivity does not exceed the timeout
survives the tick; and a session refreshed via `updateActivity` just before
the tick has `lastActivity = now`, hence is not evicted. -/
theorem pool_sweep_stale_eviction
    (p : ConnectionPool) (now timeout : Nat)
    (hnd : (p.sessions.map (fun s => s.id)).Nodup) :
    (∀ s ∈ p.sessions, ConnectionPool.isStale now timeout s = true →
      s.id ∈ (ConnectionPool.cleanupStaleSessions p now timeout).cleanupsInvoked ∧
      ∀ t ∈ (ConnectionPool.cleanupStaleSessions p now timeout).sessions, ¬ t.id = s.id)
  ∧ (∀ s ∈ p.sessions, ConnectionPool.isStale now timeout s = false →
      s ∈ (ConnectionPool.cleanupStaleSessions p now timeout).sessions)
  ∧ (∀ id, ∀ s ∈ ((ConnectionPool.updateActivity p id now).1).sessions, s.id = id →
      s.lastActivity = now ∧
      s ∈ (ConnectionPool.cleanupStaleSessions
            ((ConnectionPool.updateActivity p id now).1) now timeout).sessions) := by
  have hstalend : ((p.sessions.filter (ConnectionPool.isStale now timeout)).map
      (fun s => s.id)).Nodup :=
    ((List.filter_sublist p.sessions).map (fun s => s.id)).nodup hnd
  refine ⟨?_, ?_, ?_⟩
  · intro s hs hstale
    have hsid : s.id ∈ (p.sessions.filter (ConnectionPool.isStale now timeout)).map
        (fun s => s.id) :=
      List.mem_map.mpr ⟨s, List.mem_filter.mpr ⟨hs, hstale⟩, rfl⟩
    constructor
    · exact ConnectionPool.invoked_cleanupAll _ p hstalend
        (fun j hj => by
          obtain ⟨s', hs', hid⟩ := List.mem_map.mp hj
          exact ⟨s', (List.mem_filter.mp hs').1, hid⟩)
        s.id hsid
    · intro t ht hc
      have := (ConnectionPool.mem_cleanupAll _ p t).mp ht
      exact this.2 (hc ▸ hsid)
  · intro s hs hfresh
    exact ConnectionPool.fresh_survives p now timeout hnd s hs hfresh
  · intro id s hs hid
    have hla := ConnectionPool.updateActivity_lastActivity p id now s hs hid
    refine ⟨hla, ?_⟩
    apply ConnectionPool.fresh_survives _ now timeout
      (by rw [ConnectionPool.ids_updateActivity]; exact hnd) s hs
    unfold ConnectionPool.isStale
    rw [hla]
    simp

/-- C10: `cleanupSession` never leaves the session registered after
attempting cleanup, and reports the attempt's outcome (`false` exactly when
the session's `cleanup` rejects); consequently the pool `shutdown` report
satisfies `successful + failed = total` and the pool is empty afterwards. -/
theorem pool_shutdown_accounting (p : ConnectionPool) :
    ((ConnectionPool.shutdown p).2).successful + ((ConnectionPool.shutdown p).2).failed
        = ((ConnectionPool.shutdown p).2).total
  ∧ ((ConnectionPool.shutdown p).1).sessions = []
  ∧ (∀ (q : ConnectionPool) (id : String) (t : PoolSession),
      t ∈ ((ConnectionPool.cleanupSession q id).1).sessions → ¬ t.id = id)
  ∧ (∀ (q : ConnectionPool) (id : String) (s : PoolSession),
      q.findSession id = some s → (ConnectionPool.cleanupSession q id).2 = s.cleanupOk) := by
  refine ⟨?_, ?_, ?_, ?_⟩
  · unfold ConnectionPool.shutdown
    simp only
    rw [ConnectionPool.countP_bool]
    exact ConnectionPool.len_cleanupAll _ p
  · apply List.eq_nil_iff_forall_not_mem.mpr
    intro t ht
    unfold ConnectionPool.shutdown at ht
    simp only at ht
    have := (ConnectionPool.mem_cleanupAll _ p t).mp ht
    exact this.2 (List.mem_map.mpr ⟨t, this.1, rfl⟩)
  · intro q id t ht
    exact ((ConnectionPool.mem_cleanupSession q id t).mp ht).2
  · intro q id s h
    unfold ConnectionPool.cleanupSession
    rw [h]


/-- Witness for C7 at a concrete pool (`now = 100`, `timeout = 10`): the
session inactive for 100ms is cleaned up; the one inactive for 5ms survives;
the stale one survives after being touched via `updateActivity`. -/
theorem pool_sweep_stale_eviction_witness :
    ("old" : String) ∈ (ConnectionPool.cleanupStaleSessions
      ⟨[⟨"old", 0, 0, true⟩, ⟨"fresh", 0, 95, true⟩], 2, 0, 2, []⟩ 100 10).cleanupsInvoked ∧
    (⟨"fresh", 0, 95, true⟩ : PoolSession) ∈ (ConnectionPool.cleanupStaleSessions
      ⟨[⟨"old", 0, 0, true⟩, ⟨"fresh", 0, 95, true⟩], 2, 0, 2, []⟩ 100 10).sessions ∧
    (⟨"old", 0, 100, true⟩ : PoolSession) ∈ (ConnectionPool.cleanupStaleSessions
      ((ConnectionPool.updateActivity
        ⟨[⟨"old", 0, 0, true⟩, ⟨"fresh", 0, 95, true⟩], 2, 0, 2, []⟩ "old" 100).1)
      100 10).sessions := by
  refine ⟨?_, ?_, ?_⟩
  · exact ((pool_sweep_stale_eviction
      ⟨[⟨"old", 0, 0, true⟩, ⟨"fresh", 0, 95, true⟩], 2, 0, 2, []⟩ 100 10 (by decide)).1
      ⟨"old", 0, 0, true⟩ (by decide) (by decide)).1
  · exact (pool_sweep_stale_eviction
      ⟨[⟨"old", 0, 0, true⟩, ⟨"fresh", 0, 95, true⟩], 2, 0, 2, []⟩ 100 10 (by decide)).2.1
      ⟨"fresh", 0, 95, true⟩ (by decide) (by decide)
  · exact ((pool_sweep_stale_eviction
      ⟨[⟨"old", 0, 0, true⟩, ⟨"fresh", 0, 95, true⟩], 2, 0, 2, []⟩ 100 10 (by decide)).2.2
      "old" ⟨"old", 0, 100, true⟩ (by decide) rfl).2

/-- Witness for C10 at a concrete two-session pool where one cleanup
rejects: the report balances and the pool is empty; the surviving entry of a
single cleanup never carries the cleaned id. -/
theorem pool_shutdown_accounting_witness :
    ((ConnectionPool.shutdown
        ⟨[⟨"a", 0, 0, true⟩, ⟨"b", 0, 5, false⟩], 2, 0, 2, []⟩).2).successful +
      ((ConnectionPool.shutdown
        ⟨[⟨"a", 0, 0, true⟩, ⟨"b", 0, 5, false⟩], 2, 0, 2, []⟩).2).failed =
      ((ConnectionPool.shutdown
        ⟨[⟨"a", 0, 0, true⟩, ⟨"b", 0, 5, false⟩], 2, 0, 2, []⟩).2).total ∧
    ((ConnectionPool.shutdown
        ⟨[⟨"a", 0, 0, true⟩, ⟨"b", 0, 5, false⟩], 2, 0, 2, []⟩).1).sessions = [] ∧
    ¬ (⟨"b", 0, 5, false⟩ : PoolSession).id = "a" ∧
    (ConnectionPool.cleanupSession
        ⟨[⟨"a", 0, 0, true⟩, ⟨"b", 0, 5, false⟩], 2, 0, 2, []⟩ "b").2 = false := by
  refine ⟨(pool_shutdown_accounting
      ⟨[⟨"a", 0, 0, true⟩, ⟨"b", 0, 5, false⟩], 2, 0, 2, []⟩).1,
    (pool_shutdown_accounting
      ⟨[⟨"a", 0, 0, true⟩, ⟨"b", 0, 5, false⟩], 2, 0, 2, []⟩).2.1,
    (pool_shutdown_accounting
      ⟨[⟨"a", 0, 0, true⟩, ⟨"b", 0, 5, false⟩], 2, 0, 2, []⟩).2.2.1
      ⟨[⟨"a", 0, 0, true⟩, ⟨"b", 0, 5, false⟩], 2, 0, 2, []⟩ "a"
      ⟨"b", 0, 5, false⟩ (by decide),
    (pool_shutdown_accounting
      ⟨[⟨"a", 0, 0, true⟩, ⟨"b", 0, 5, false⟩], 2, 0, 2, []⟩).2.2.2
      ⟨[⟨"a", 0, 0, true⟩, ⟨"b", 0, 5, false⟩], 2, 0, 2, []⟩ "b"
      ⟨"b", 0, 5, false⟩ (by decide)⟩
